import Mathlib

/-!
# Valthree: verification of the storage engine, dispatcher, client and model

A shallow embedding of the Valthree key-value server (Go sources under
`internal/server`, `internal/client`, `internal/proptest`, `internal/op`)
together with proofs of the specification claims about it.

The object store is external to the repository (an S3-compatible service),
so its responses are supplied as explicit inputs ("oracles"): a
`GetObjectResult` for each read and a `PutObjectResult` for each write.
All repository code operating on those responses is translated faithfully.
-/

/-! ## Data model

The in-memory database is Go's `map[string]string`.  We model it as an
association list with the map operations used by the code; JSON-decoded
maps have pairwise-distinct keys (`DbWF`).
-/

/-- In-memory database: Go `map[string]string` as an association list. -/
def Db := List (String × String)

instance : DecidableEq Db := by unfold Db; infer_instance

/-- Well-formed database: keys are pairwise distinct (as in a Go map). -/
def DbWF (db : Db) : Prop := (db.map Prod.fst).Nodup

/-- Go `items[k]` (lookup). -/
def dbLookup : Db → String → Option String
  | [], _ => none
  | (k', v') :: rest, k => if k' = k then some v' else dbLookup rest k

/-- Go `_, ok := items[k]`. -/
def dbContains (db : Db) (k : String) : Bool := (dbLookup db k).isSome

/-- Go `items[k] = v` (insert or overwrite). -/
def dbInsert : Db → String → String → Db
  | [], k, v => [(k, v)]
  | (k', v') :: rest, k, v =>
      if k' = k then (k, v) :: rest else (k', v') :: dbInsert rest k v

/-- Go `delete(items, k)`. -/
def dbErase (db : Db) (k : String) : Db := db.filter (fun p => p.1 != k)

/-- Go `len(items)`: for a well-formed database this is the number of keys. -/
def dbLen (db : Db) : Nat := db.length

/-! ## Storage engine (`internal/server/storage.go`)

Errors are Go `error` values; the only error compared by identity is the
`errMismatchedETag` sentinel, so the error type distinguishes it from all
message-carrying errors.
-/

/-- A Go `error` as used by the storage engine: either the
`errMismatchedETag` sentinel or an ordinary message-carrying error. -/
inductive Err
  | mismatchedETag
  | msg (s : String)
  deriving DecidableEq

/-- `fmt` rendering of an `Err` (`%v`). -/
def renderErr : Err → String
  | .mismatchedETag => "mismatched ETags"
  | .msg s => s

/-- The body of a stored object as seen by `json.Decode`: either a valid
JSON string-to-string object or malformed data (with the decoder's
message). -/
inductive Body
  | json (db : Db)
  | invalid (m : String)
  deriving DecidableEq

/-- Outcome of `s3.GetObject`: the object is missing (`NoSuchKey`), the
call failed with some other error, or it succeeded with an optional ETag
header and a body. -/
inductive GetObjectResult
  | noSuchKey
  | err (m : String)
  | ok (etag : Option String) (body : Body)
  deriving DecidableEq

/-- Outcome of `s3.PutObject`: success, a `smithy.APIError` with its code
and rendered message, or a non-API error. -/
inductive PutObjectResult
  | ok
  | apiError (code : String) (m : String)
  | otherErr (m : String)
  deriving DecidableEq

/-- `storage.getDB`: decode a `GetObject` outcome into `(items, etag)`.
A missing object yields `(∅, "")`; a missing/empty ETag header and a
malformed body are hard errors; other read failures are wrapped as
`get object: ...`. -/
def getDB : GetObjectResult → Except Err (Db × String)
  | .noSuchKey => .ok ([], "")
  | .err m => .error (.msg ("get object: " ++ m))
  | .ok etag body =>
      match etag with
      | none => .error (.msg "response has no etag")
      | some e =>
          if e = "" then .error (.msg "response has no etag")
          else
            match body with
            | .invalid m => .error (.msg ("unmarshal: " ++ m))
            | .json db => .ok (db, e)

/-- `storage.GetDB`: public read; drops the ETag. -/
def GetDB (r : GetObjectResult) : Except Err Db :=
  match getDB r with
  | .error e => .error e
  | .ok (items, _) => .ok items

/-- The conditional header `storage.setDB` attaches to its PUT:
`If-None-Match: *` when the ETag is the empty sentinel, else
`If-Match: <etag>`. -/
inductive PutCond
  | ifNoneMatchStar
  | ifMatch (etag : String)
  deriving DecidableEq

/-- The condition `storage.setDB` computes from the ETag it was given. -/
def putCondOf (etag : String) : PutCond :=
  if etag = "" then .ifNoneMatchStar else .ifMatch etag

/-- `storage.setDB`: classify the `PutObject` outcome.  An API error with
code `PreconditionFailed` becomes the `errMismatchedETag` sentinel; any
other failure is wrapped as `put object: ...`; success is no error. -/
def setDB (w : PutObjectResult) : Option Err :=
  match w with
  | .ok => none
  | .apiError code m =>
      if code = "PreconditionFailed" then some .mismatchedETag
      else some (.msg ("put object: " ++ m))
  | .otherErr m => some (.msg ("put object: " ++ m))

/-- The environment of one iteration of the `MutateDB` loop: the object
store's response to the iteration's read and to its write. -/
structure IterEnv where
  read : GetObjectResult
  write : PutObjectResult
  deriving DecidableEq

/-- A `MutateDB` callback: Go `func(map[string]string) (int, error)`.
The callback mutates the map in place, so in the embedding it returns the
mutated map alongside `(n, err)`. -/
def Callback := Db → Db × Int × Option Err

/-- What one iteration of the `MutateDB` loop does. -/
inductive StepRes
  | retry
  | finish (n : Int) (e : Option Err)
  deriving DecidableEq

/-- One iteration of `storage.MutateDB`: read, copy, invoke the callback
on the copy, write the mutated copy conditionally.  A read error or a
callback error finishes with `(0, err)`; a write failing with the
mismatched-ETag sentinel retries; any other write failure finishes with
`(0, err)`; a successful write finishes with `(n, nil)`. -/
def mutateStep (f : Callback) (e : IterEnv) : StepRes :=
  match getDB e.read with
  | .error err => .finish 0 (some err)
  | .ok (items, _etag) =>
      -- itemsCopy := copy of items; f runs on the copy
      let r := f items
      match r.2.2 with
      | some err => .finish 0 (some err)
      | none =>
          match setDB e.write with
          | some .mismatchedETag => .retry
          | some err => .finish 0 (some err)
          | none => .finish r.2.1 none

/-- Result of running the `MutateDB` loop against a finite list of
iteration environments: either the loop returned, or it is still running
when the environments run out. -/
inductive MutateResult
  | done (n : Int) (e : Option Err)
  | running
  deriving DecidableEq

/-- `storage.MutateDB`: the retry loop, driven by the per-iteration
object-store responses. -/
def mutateDBRun (f : Callback) : List IterEnv → MutateResult
  | [] => .running
  | e :: rest =>
      match mutateStep f e with
      | .retry => mutateDBRun f rest
      | .finish n err => .done n err

/-- The arguments successively passed to the callback `f` by the
`MutateDB` loop (one per iteration that reaches the `f(itemsCopy)`
call). -/
def mutateDBCalls (f : Callback) : List IterEnv → List Db
  | [] => []
  | e :: rest =>
      match getDB e.read with
      | .error _ => []
      | .ok (items, _etag) =>
          items ::
            (match (f items).2.2 with
            | some _ => []
            | none =>
                match setDB e.write with
                | some .mismatchedETag => mutateDBCalls f rest
                | some _ => []
                | none => [])

/-- The database images successively sent to `PutObject` by the
`MutateDB` loop (one per iteration that reaches the `setDB` call). -/
def mutateDBWrites (f : Callback) : List IterEnv → List Db
  | [] => []
  | e :: rest =>
      match getDB e.read with
      | .error _ => []
      | .ok (items, _etag) =>
          let r := f items
          match r.2.2 with
          | some _ => []
          | none =>
              r.1 ::
                (match setDB e.write with
                | some .mismatchedETag => mutateDBWrites f rest
                | _ => [])

/-- The database freshly read (and successfully decoded) at each
iteration, cut at the first read failure.  Depends only on the
object-store responses, never on the callback. -/
def freshReads : List IterEnv → List Db
  | [] => []
  | e :: rest =>
      match getDB e.read with
      | .error _ => []
      | .ok (items, _etag) => items :: freshReads rest

/-! ## Op taxonomy (`internal/op`) and replies (`internal/server/server.go`)

Go `op.Op` is a lowercase command-name string.  Replies are the RESP reply
shapes the dispatcher writes through redcon.
-/

/-- `op.Op`: a Valkey operation name. -/
abbrev Op := String

def opGet : Op := "get"
def opSet : Op := "set"
def opDel : Op := "del"
def opFlushAll : Op := "flushall"
def opPing : Op := "ping"
def opQuit : Op := "quit"

/-- A RESP reply written by the dispatcher. -/
inductive Reply
  | simple (s : String)
  | error (s : String)
  | int (n : Int)
  | bulk (s : String)
  | null
  deriving DecidableEq

/-- A single quote character, for building Go format strings. -/
def squote : String := String.mk [Char.ofNat 39]

/-- `writeErrArity`: the reply
`ERR wrong number of arguments for '<op>' command`. -/
def arityError (o : Op) : Reply :=
  .error ("ERR wrong number of arguments for " ++ squote ++ o ++ squote ++ " command")

/-- `writeErr`: the reply `ERR <err>`. -/
def errReply (e : Err) : Reply := .error ("ERR " ++ renderErr e)

/-! ## Command handlers (`internal/server/server.go`)

Each handler takes its argument list and the object-store responses for
the `MutateDB` iterations it may perform, and produces the reply it
writes (`none` when the retry loop never returns within the supplied
environments).
-/

/-- The message of the capacity-guard error
`at max capacity of %d keys`. -/
def maxCapacityMsg (maxItems : Int) : String :=
  "at max capacity of " ++ toString maxItems ++ " keys"

/-- The callback `Server.set` passes to `MutateDB`: refuse when the map
already holds `maxItems` keys, else insert. -/
def setCallback (maxItems : Int) (k v : String) : Callback := fun items =>
  if (dbLen items : Int) ≥ maxItems then
    (items, 0, some (.msg (maxCapacityMsg maxItems)))
  else
    (dbInsert items k v, 0, none)

/-- `Server.set`: arity check, empty-value check, then `MutateDB` with
the capacity-guarded insert callback. -/
def serverSet (maxItems : Int) (args : List String) (envs : List IterEnv) :
    Option Reply :=
  match args with
  | [k, v] =>
      if v = "" then some (errReply (.msg "empty value"))
      else
        match mutateDBRun (setCallback maxItems k v) envs with
        | .running => none
        | .done _ (some e) => some (errReply e)
        | .done _ none => some (.simple "OK")
  | _ => some (arityError opSet)

/-- The database images `Server.set` sends to `PutObject` (empty when the
request is rejected before `MutateDB` is invoked). -/
def serverSetWrites (maxItems : Int) (args : List String)
    (envs : List IterEnv) : List Db :=
  match args with
  | [k, v] =>
      if v = "" then []
      else mutateDBWrites (setCallback maxItems k v) envs
  | _ => []

/-- The callback `Server.del` passes to `MutateDB`: remove the key,
reporting 1 if it was present and 0 otherwise. -/
def delCallback (k : String) : Callback := fun items =>
  let ok := dbContains items k
  (dbErase items k, if ok then 1 else 0, none)

/-- `Server.del`: exactly one key (multi-key `DEL` is not supported),
then `MutateDB` with the removal callback; replies the reported count. -/
def serverDel (args : List String) (envs : List IterEnv) : Option Reply :=
  match args with
  | [k] =>
      match mutateDBRun (delCallback k) envs with
      | .running => none
      | .done _ (some e) => some (errReply e)
      | .done n none => some (.int n)
  | _ => some (arityError opDel)

/-- The callback `Server.flushAll` passes to `MutateDB`: `clear(items)`. -/
def flushCallback : Callback := fun _items => ([], 0, none)

/-- `Server.flushAll`: no arguments allowed, then `MutateDB` with the
clearing callback. -/
def serverFlushAll (args : List String) (envs : List IterEnv) :
    Option Reply :=
  if args.length > 0 then some (arityError opFlushAll)
  else
    match mutateDBRun flushCallback envs with
    | .running => none
    | .done _ (some e) => some (errReply e)
    | .done _ none => some (.simple "OK")

/-- `Server.ping`: replies `+PONG`; the argument list is not examined. -/
def serverPing (_args : List String) : Reply := .simple "PONG"

/-! ## Typed client (`internal/client/client.go`)

One blocking redigo connection plus the sticky `connErr` field.  Each
method is a function of the latched state and of the connection's
behavior during the call (`DoEnv`): the reply value and error produced by
`conn.Do`, and what `conn.Err()` reports afterwards.
-/

/-- A redigo reply value, by dynamic type: status string, bulk bytes,
integer, nil, or array (these methods never inspect array elements). -/
inductive RVal
  | simple (s : String)
  | bulk (s : String)
  | int (n : Int)
  | null
  | arr
  deriving DecidableEq

/-- Go `%T` of a redigo reply value. -/
def rvalTypeName : RVal → String
  | .simple _ => "string"
  | .bulk _ => "[]uint8"
  | .int _ => "int64"
  | .null => "<nil>"
  | .arr => "[]interface \x7b\x7d"

/-- An error returned by a client method: the `ErrNotFound` sentinel, the
sticky `conn unusable: <cause>` wrapper, or any other rendered error. -/
inductive CliErr
  | notFound
  | connUnusable (cause : String)
  | errMsg (m : String)
  deriving DecidableEq

/-- `fmt` rendering of a client error. -/
def renderCliErr : CliErr → String
  | .notFound => "key not found"
  | .connUnusable c => "conn unusable: " ++ c
  | .errMsg m => m

/-- The connection's behavior during one `conn.Do` call: the error and
reply value `Do` produces, and what `conn.Err()` reports afterwards. -/
structure DoEnv where
  doErr : Option String
  res : RVal
  connErr : Option String
  deriving DecidableEq

/-- The latched state of a client: `none`, or the cause recorded in
`connErr`. -/
abbrev CliState := Option String

/-- `Client.Ping`. -/
def clientPing (st : CliState) (env : DoEnv) : Option CliErr × CliState :=
  match st with
  | some cause => (some (.connUnusable cause), some cause)
  | none =>
      match env.doErr with
      | some m => (some (.errMsg m), none)
      | none =>
          match env.res with
          | .simple r =>
              if r = "PONG" then
                match env.connErr with
                | some e => (some (.connUnusable e), some e)
                | none => (none, none)
              else (some (.errMsg ("unexpected ping response: " ++ r)), none)
          | other =>
              (some (.errMsg ("unexpected ping response type: " ++
                rvalTypeName other)), none)

/-- `Client.Get`. -/
def clientGet (st : CliState) (_key : String) (env : DoEnv) :
    Except CliErr String × CliState :=
  match st with
  | some cause => (.error (.connUnusable cause), some cause)
  | none =>
      match env.doErr with
      | some m => (.error (.errMsg m), none)
      | none =>
          match env.res with
          | .null => (.error .notFound, none)
          | .bulk r =>
              match env.connErr with
              | some e => (.error (.connUnusable e), some e)
              | none => (.ok r, none)
          | other =>
              (.error (.errMsg ("unexpected get response type: " ++
                rvalTypeName other)), none)

/-- `Client.Set`. -/
def clientSet (st : CliState) (_key _value : String) (env : DoEnv) :
    Option CliErr × CliState :=
  match st with
  | some cause => (some (.connUnusable cause), some cause)
  | none =>
      match env.doErr with
      | some m => (some (.errMsg m), none)
      | none =>
          match env.res with
          | .simple r =>
              if r = "OK" then
                match env.connErr with
                | some e => (some (.connUnusable e), some e)
                | none => (none, none)
              else (some (.errMsg ("unexpected set response: " ++ r)), none)
          | other =>
              (some (.errMsg ("unexpected set response type: " ++
                rvalTypeName other)), none)

/-- `Client.Del` (single key). -/
def clientDel (st : CliState) (_key : String) (env : DoEnv) :
    Option CliErr × CliState :=
  match st with
  | some cause => (some (.connUnusable cause), some cause)
  | none =>
      match env.doErr with
      | some m => (some (.errMsg m), none)
      | none =>
          match env.res with
          | .int r =>
              if r > 1 then
                (some (.errMsg ("server returned " ++ toString r ++
                  " for single-key DEL")), none)
              else if r = 0 then (some .notFound, none)
              else
                match env.connErr with
                | some e => (some (.connUnusable e), some e)
                | none => (none, none)
          | other =>
              (some (.errMsg ("unexpected del response type: " ++
                rvalTypeName other)), none)

/-- `Client.FlushAll`. -/
def clientFlushAll (st : CliState) (env : DoEnv) :
    Option CliErr × CliState :=
  match st with
  | some cause => (some (.connUnusable cause), some cause)
  | none =>
      match env.doErr with
      | some m => (some (.errMsg m), none)
      | none =>
          match env.res with
          | .simple r =>
              if r = "OK" then
                match env.connErr with
                | some e => (some (.connUnusable e), some e)
                | none => (none, none)
              else
                (some (.errMsg ("unexpected flushall response: " ++ r)), none)
          | other =>
              (some (.errMsg ("unexpected flushall response type: " ++
                rvalTypeName other)), none)

/-- `Client.Close`: `closeErr` is the error from `conn.Close`, if any. -/
def clientClose (st : CliState) (closeErr : Option String) :
    Option CliErr × CliState :=
  match st with
  | some cause => (some (.connUnusable cause), some cause)
  | none =>
      match closeErr with
      | some m => (some (.errMsg m), some m)
      | none => (none, none)

/-! ## Reference model (`internal/proptest/set.go`, `newModel`)

The model state is the immutable string set: Go `map[string]struct{}`,
which is exactly a finite set of strings.  `Items()` is the
lexicographically sorted element list; the porcupine `Equal` function
compares those lists.
-/

/-- `set.Items()`: the elements in lexicographic order. -/
def sortedItems (s : Finset String) : List String := s.sort (· ≤ ·)

/-- The porcupine `Equal` function: `slices.Equal(l.Items(), r.Items())`. -/
def modelEqual (l r : Finset String) : Bool := sortedItems l == sortedItems r

/-- The porcupine operation input (`proptest.args`). -/
structure MArgs where
  op : Op
  key : String
  value : String

/-- The porcupine operation output (`proptest.rets`): the value and the
client error, if any. -/
structure MRets where
  value : String
  err : Option CliErr

/-- The porcupine `Step` function of `newModel`: given the current
possibility set and an operation record, return legality and the next
state. -/
def stepModel (db : Finset String) (input : MArgs) (output : MRets) :
    Bool × Finset String :=
  if input.op = opGet then
    match output.err with
    | some e =>
        if e = .notFound then
          (decide ("" ∈ db) || decide (db.card = 0), db)
        else (true, db)
    | none => (decide (output.value ∈ db), db)
  else if input.op = opSet then
    match output.err with
    | some _ => (true, insert input.value db)
    | none => (true, {input.value})
  else if input.op = opDel then
    match output.err with
    | some _ => (true, insert "" db)
    | none => (true, ∅)
  else (true, db)

/-! ## Helper lemmas -/

/-- `setDB` yields the mismatched-ETag sentinel exactly for a
`PreconditionFailed` API error. -/
theorem setDB_mismatched_iff (w : PutObjectResult) :
    setDB w = some .mismatchedETag ↔
      ∃ m, w = .apiError "PreconditionFailed" m := by
  cases w with
  | ok => simp [setDB]
  | apiError code m =>
      by_cases hc : code = "PreconditionFailed" <;>
        simp [setDB, hc]
  | otherErr m => simp [setDB]

/-- Whenever one loop iteration finishes with an error, the reported
integer is 0. -/
theorem mutateStep_finish_err (f : Callback) (e : IterEnv) (m : Int)
    (er : Err) (h : mutateStep f e = .finish m (some er)) : m = 0 := by
  unfold mutateStep at h
  cases hg : getDB e.read with
  | error err => rw [hg] at h; simp_all
  | ok p =>
      obtain ⟨items, etag⟩ := p
      rw [hg] at h
      dsimp only at h
      cases hf : (f items).2.2 with
      | some err => rw [hf] at h; simp_all
      | none =>
          rw [hf] at h
          cases hw : setDB e.write with
          | none => rw [hw] at h; simp_all
          | some err =>
              rw [hw] at h
              cases err <;> simp_all

/-- A successful read of a stored object with a non-empty ETag decodes to
its JSON body and that ETag. -/
theorem getDB_ok_of_ne (db : Db) (etag : String) (he : etag ≠ "") :
    getDB (.ok (some etag) (.json db)) = .ok (db, etag) := by
  simp [getDB, he]

/-- Running `MutateDB` against a single iteration whose read succeeds
(JSON body `db`, non-empty ETag) and whose write succeeds: the result and
the PUT bodies, by cases on the callback outcome. -/
theorem run_single_ok (f : Callback) (db : Db) (etag : String)
    (he : etag ≠ "") :
    (mutateDBRun f [⟨.ok (some etag) (.json db), .ok⟩] =
      match (f db).2.2 with
      | some err => .done 0 (some err)
      | none => .done (f db).2.1 none)
    ∧ (mutateDBWrites f [⟨.ok (some etag) (.json db), .ok⟩] =
      match (f db).2.2 with
      | some _ => []
      | none => [(f db).1]) := by
  have hg := getDB_ok_of_ne db etag he
  constructor
  · unfold mutateDBRun mutateStep
    rw [hg]
    dsimp only
    cases hf : (f db).2.2 with
    | some err => simp [hf]
    | none => simp [hf, setDB]
  · unfold mutateDBWrites
    rw [hg]
    dsimp only
    cases hf : (f db).2.2 with
    | some err => simp [hf]
    | none => simp [hf, setDB]

/-! ## Claim theorems -/

/-- **C1.** On every iteration of the `MutateDB` retry loop, the callback
is invoked on an independent copy of the freshly read items map: the
sequence of arguments the loop passes to the callback is a prefix of the
iteration-wise fresh reads `freshReads`, a function of the object-store
responses alone.  Hence after an ETag-mismatch retry the next invocation
observes only freshly read data, never mutations made by a previous
invocation. -/
theorem c1_mutateDB_callback_sees_fresh_reads (f : Callback)
    (envs : List IterEnv) : mutateDBCalls f envs <+: freshReads envs := by
  induction envs with
  | nil => simp [mutateDBCalls, freshReads]
  | cons e rest ih =>
      unfold mutateDBCalls freshReads
      cases hg : getDB e.read with
      | error err => simp
      | ok p =>
          obtain ⟨items, etag⟩ := p
          dsimp only
          cases hf : (f items).2.2 with
          | some err => exact ⟨freshReads rest, rfl⟩
          | none =>
              cases hw : setDB e.write with
              | none => exact ⟨freshReads rest, rfl⟩
              | some err =>
                  cases err with
                  | mismatchedETag => exact List.cons_prefix_cons.mpr ⟨rfl, ih⟩
                  | msg s => exact ⟨freshReads rest, rfl⟩

/-- **C2.** The `MutateDB` loop restarts exactly when the conditional PUT
fails with the `PreconditionFailed` (ETag-mismatch) API error: an
iteration retries iff its read and callback succeeded and its write
failed with `PreconditionFailed`; a retrying iteration restarts the loop;
a finishing iteration returns its result; and any other write failure
(API error with a different code, or a non-API error) is returned to the
caller as `put object: ...` rather than retried. -/
theorem c2_mutateDB_retry_iff_precondition_failed (f : Callback)
    (e : IterEnv) :
    (mutateStep f e = .retry ↔
      ∃ db etag, getDB e.read = .ok (db, etag) ∧ (f db).2.2 = none ∧
        ∃ m, e.write = .apiError "PreconditionFailed" m)
    ∧ (∀ rest, mutateStep f e = .retry →
        mutateDBRun f (e :: rest) = mutateDBRun f rest)
    ∧ (∀ rest n er, mutateStep f e = .finish n er →
        mutateDBRun f (e :: rest) = .done n er)
    ∧ (∀ db etag code m, getDB e.read = .ok (db, etag) → (f db).2.2 = none →
        e.write = .apiError code m → code ≠ "PreconditionFailed" →
        mutateStep f e = .finish 0 (some (.msg ("put object: " ++ m))))
    ∧ (∀ db etag m, getDB e.read = .ok (db, etag) → (f db).2.2 = none →
        e.write = .otherErr m →
        mutateStep f e = .finish 0 (some (.msg ("put object: " ++ m)))) := by
  refine ⟨⟨?_, ?_⟩, ?_, ?_, ?_, ?_⟩
  · intro hr
    unfold mutateStep at hr
    cases hg : getDB e.read with
    | error err => rw [hg] at hr; simp at hr
    | ok p =>
        obtain ⟨items, etag⟩ := p
        rw [hg] at hr
        dsimp only at hr
        cases hf : (f items).2.2 with
        | some err => rw [hf] at hr; simp at hr
        | none =>
            rw [hf] at hr
            cases hw : setDB e.write with
            | none => rw [hw] at hr; simp at hr
            | some err =>
                rw [hw] at hr
                cases err with
                | msg s => simp at hr
                | mismatchedETag =>
                    obtain ⟨m, hm⟩ := (setDB_mismatched_iff e.write).mp hw
                    exact ⟨items, etag, rfl, hf, m, hm⟩
  · rintro ⟨db, etag, hg, hf, m, hm⟩
    unfold mutateStep
    rw [hg]
    dsimp only
    rw [hf]
    have hset : setDB e.write = some .mismatchedETag :=
      (setDB_mismatched_iff e.write).mpr ⟨m, hm⟩
    rw [hset]
  · intro rest hr
    rw [mutateDBRun, hr]
  · intro rest n er hr
    rw [mutateDBRun, hr]
  · intro db etag code m hg hf hw hc
    unfold mutateStep
    rw [hg]
    dsimp only
    rw [hf, hw]
    simp [setDB, hc]
  · intro db etag m hg hf hw
    unfold mutateStep
    rw [hg]
    dsimp only
    rw [hf, hw]
    simp [setDB]

/-- **C2 witness.** A concrete iteration whose write fails with
`PreconditionFailed` retries, and one whose write fails with another
API error finishes with the wrapped error. -/
theorem c2_witness :
    mutateStep (fun db => (db, 0, none))
      ⟨.ok (some "E") (.json []), .apiError "PreconditionFailed" "x"⟩ =
        .retry
    ∧ mutateStep (fun db => (db, 0, none))
      ⟨.ok (some "E") (.json []), .apiError "InternalError" "y"⟩ =
        .finish 0 (some (.msg ("put object: " ++ "y"))) := by
  constructor
  · exact (c2_mutateDB_retry_iff_precondition_failed _ _).1.mpr
      ⟨[], "E", by simp [getDB], rfl, "x", rfl⟩
  · exact (c2_mutateDB_retry_iff_precondition_failed _ _).2.2.2.1
      [] "E" "InternalError" "y" (by simp [getDB]) rfl rfl (by simp)

/-- **C7.** A read of a missing object (`NoSuchKey`) yields the empty
mapping, the empty-string ETag sentinel, and no error, at both the
internal (`getDB`) and public (`GetDB`) level; any other object-store
read failure is surfaced to the caller as a `get object: ...` error. -/
theorem c7_getDB_missing_object (m : String) :
    getDB .noSuchKey = .ok ([], "") ∧
    GetDB .noSuchKey = .ok [] ∧
    getDB (.err m) = .error (.msg ("get object: " ++ m)) ∧
    GetDB (.err m) = .error (.msg ("get object: " ++ m)) :=
  ⟨rfl, rfl, rfl, rfl⟩

/-- **C10.** Whenever `MutateDB` returns a non-nil error — from the
read, from the callback, or from a non-retriable write failure — the
integer it returns is 0. -/
theorem c10_mutateDB_error_returns_zero (f : Callback)
    (envs : List IterEnv) (n : Int) (e : Err)
    (h : mutateDBRun f envs = .done n (some e)) : n = 0 := by
  induction envs with
  | nil => simp [mutateDBRun] at h
  | cons env rest ih =>
      unfold mutateDBRun at h
      cases hs : mutateStep f env with
      | retry => rw [hs] at h; exact ih h
      | finish m er =>
          rw [hs] at h
          dsimp only at h
          injection h with h1 h2
          subst h2
          exact h1 ▸ mutateStep_finish_err f env m e hs

/-- **C10 witness.** A concrete failing run returns the integer 0 even
though its callback reported 7. -/
theorem c10_witness :
    mutateDBRun (fun db => (db, 7, none)) [⟨.err "boom", .ok⟩] =
      .done 0 (some (.msg ("get object: " ++ "boom"))) ∧ (0 : Int) = 0 :=
  ⟨rfl, c10_mutateDB_error_returns_zero (fun db => (db, 7, none))
    [⟨.err "boom", .ok⟩] 0 (.msg ("get object: " ++ "boom")) rfl⟩

/-- Deleting an absent key leaves the database unchanged. -/
theorem dbErase_absent (db : Db) (k : String)
    (h : dbContains db k = false) : dbErase db k = db := by
  induction db with
  | nil => rfl
  | cons p rest ih =>
      obtain ⟨k', v'⟩ := p
      unfold dbContains dbLookup at h
      by_cases hk : k' = k
      · rw [if_pos hk] at h
        simp at h
      · rw [if_neg hk] at h
        have ih' := ih h
        unfold dbErase at ih' ⊢
        rw [List.filter_cons]
        simp [hk, ih']

/-- **C5.** `SET k ""` is rejected with `ERR empty value` before the
storage engine is touched: for every storage environment the reply is
that error and no PUT is issued. -/
theorem c5_set_empty_value_rejected (maxItems : Int) (k : String)
    (envs : List IterEnv) :
    serverSet maxItems [k, ""] envs = some (.error "ERR empty value") ∧
    serverSetWrites maxItems [k, ""] envs = [] :=
  ⟨rfl, rfl⟩

/-- **C4.** With a well-formed database `db` freshly read by the
`MutateDB` callback and a non-empty value: when `db` already holds at
least `maxItems` keys — including when `k` is already present — `SET k v`
replies `ERR at max capacity of N keys` and writes nothing; otherwise it
performs the insertion `items[k] = v` (that exact image is PUT) and
replies `+OK`. -/
theorem c4_set_capacity_guard (maxItems : Int) (k v etag : String)
    (db : Db) (hwf : DbWF db) (hv : v ≠ "") (he : etag ≠ "") :
    (((dbLen db : Int) ≥ maxItems) →
      serverSet maxItems [k, v] [⟨.ok (some etag) (.json db), .ok⟩] =
        some (.error ("ERR " ++ maxCapacityMsg maxItems)) ∧
      serverSetWrites maxItems [k, v]
        [⟨.ok (some etag) (.json db), .ok⟩] = [])
    ∧ (((dbLen db : Int) < maxItems) →
      serverSet maxItems [k, v] [⟨.ok (some etag) (.json db), .ok⟩] =
        some (.simple "OK") ∧
      serverSetWrites maxItems [k, v]
        [⟨.ok (some etag) (.json db), .ok⟩] = [dbInsert db k v]) := by
  obtain ⟨hrun, hwrites⟩ := run_single_ok (setCallback maxItems k v) db etag he
  constructor
  · intro hge
    have hf : setCallback maxItems k v db =
        (db, 0, some (.msg (maxCapacityMsg maxItems))) := by
      simp [setCallback, hge]
    rw [hf] at hrun hwrites
    dsimp only at hrun hwrites
    exact ⟨by simp [serverSet, hv, hrun, errReply, renderErr],
      by simp [serverSetWrites, hv, hwrites]⟩
  · intro hlt
    have hf : setCallback maxItems k v db = (dbInsert db k v, 0, none) := by
      simp [setCallback, not_le.mpr hlt]
    rw [hf] at hrun hwrites
    dsimp only at hrun hwrites
    exact ⟨by simp [serverSet, hv, hrun],
      by simp [serverSetWrites, hv, hwrites]⟩

/-- **C4 witness.** With `max-keys = 1` and the single key `a` already
stored, `SET a y` — a pure overwrite — is still refused at capacity,
while on an empty database the insertion goes through with `+OK`. -/
theorem c4_witness :
    (DbWF [("a", "x")] ∧ ("y" : String) ≠ "" ∧ ("E" : String) ≠ "" ∧
      (dbLen [("a", "x")] : Int) ≥ 1 ∧
      serverSet 1 ["a", "y"] [⟨.ok (some "E") (.json [("a", "x")]), .ok⟩] =
        some (.error ("ERR " ++ maxCapacityMsg 1)))
    ∧ ((dbLen ([] : Db) : Int) < 1 ∧
      serverSet 1 ["a", "y"] [⟨.ok (some "E") (.json ([] : Db)), .ok⟩] =
        some (.simple "OK")) := by
  refine ⟨⟨?_, ?_, ?_, ?_, ?_⟩, ⟨?_, ?_⟩⟩
  · simp [DbWF]
  · decide
  · decide
  · simp [dbLen]
  · exact ((c4_set_capacity_guard 1 "a" "y" "E" [("a", "x")]
      (by simp [DbWF]) (by decide) (by decide)).1 (by simp [dbLen])).1
  · simp [dbLen]
  · exact ((c4_set_capacity_guard 1 "a" "y" "E" []
      (by simp [DbWF]) (by decide) (by decide)).2 (by simp [dbLen])).1

/-- **C6.** `DEL` with exactly one argument `k`: when `k` is present the
reply is the integer 1 and the PUT image is the database with `k`
removed; when `k` is absent the reply is the integer 0 and the PUT image
equals the database unchanged.  Any other argument count replies the
arity error without touching storage. -/
theorem c6_del_semantics (k etag : String) (db : Db) (he : etag ≠ "") :
    (dbContains db k = true →
      serverDel [k] [⟨.ok (some etag) (.json db), .ok⟩] = some (.int 1) ∧
      mutateDBWrites (delCallback k) [⟨.ok (some etag) (.json db), .ok⟩] =
        [dbErase db k])
    ∧ (dbContains db k = false →
      serverDel [k] [⟨.ok (some etag) (.json db), .ok⟩] = some (.int 0) ∧
      mutateDBWrites (delCallback k) [⟨.ok (some etag) (.json db), .ok⟩] =
        [dbErase db k] ∧ dbErase db k = db)
    ∧ (∀ (args : List String) (envs : List IterEnv), args.length ≠ 1 →
        serverDel args envs = some (arityError opDel)) := by
  obtain ⟨hrun, hwrites⟩ := run_single_ok (delCallback k) db etag he
  refine ⟨?_, ?_, ?_⟩
  · intro hc
    have hf : delCallback k db = (dbErase db k, 1, none) := by
      simp [delCallback, hc]
    rw [hf] at hrun hwrites
    dsimp only at hrun hwrites
    exact ⟨by simp [serverDel, hrun], hwrites⟩
  · intro hc
    have hf : delCallback k db = (dbErase db k, 0, none) := by
      simp [delCallback, hc]
    rw [hf] at hrun hwrites
    dsimp only at hrun hwrites
    exact ⟨by simp [serverDel, hrun], hwrites, dbErase_absent db k hc⟩
  · intro args envs hlen
    cases args with
    | nil => rfl
    | cons a t =>
        cases t with
        | nil => simp at hlen
        | cons b t2 => rfl

/-- **C6 witness.** Deleting the present key `a` replies `:1` and writes
the database without it; deleting the absent key `b` replies `:0` and
writes the database unchanged; two arguments draw the arity error. -/
theorem c6_witness :
    (dbContains [("a", "x")] "a" = true ∧
      serverDel ["a"] [⟨.ok (some "E") (.json [("a", "x")]), .ok⟩] =
        some (.int 1))
    ∧ (dbContains [("a", "x")] "b" = false ∧
      serverDel ["b"] [⟨.ok (some "E") (.json [("a", "x")]), .ok⟩] =
        some (.int 0))
    ∧ serverDel ["a", "b"] [] = some (arityError opDel) := by
  refine ⟨⟨?_, ?_⟩, ⟨?_, ?_⟩, ?_⟩
  · decide
  · exact ((c6_del_semantics "a" "E" [("a", "x")] (by decide)).1
      (by decide)).1
  · decide
  · exact ((c6_del_semantics "b" "E" [("a", "x")] (by decide)).2.1
      (by decide)).1
  · exact (c6_del_semantics "a" "E" [] (by decide)).2.2 ["a", "b"] []
      (by decide)

/-- The sorted item sequence determines the set. -/
theorem sortedItems_inj (S T : Finset String)
    (h : sortedItems S = sortedItems T) : S = T := by
  ext a
  constructor
  · intro ha
    have hm : a ∈ sortedItems S := (Finset.mem_sort _).mpr ha
    rw [h] at hm
    exact (Finset.mem_sort _).mp hm
  · intro ha
    have hm : a ∈ sortedItems T := (Finset.mem_sort _).mpr ha
    rw [← h] at hm
    exact (Finset.mem_sort _).mp hm

/-- **C3.** The reference model's step function matches the spec's
transition table for every state and operation record: successful GET
legal iff the value is in `S` (state unchanged); GET with `ErrNotFound`
legal iff `"" ∈ S ∨ S = ∅` (state unchanged); GET with any other error
legal (state unchanged); successful SET of `v` legal with new state
`{v}`; failed SET legal with new state `S ∪ {v}`; successful DEL legal
with new state `∅`; failed DEL legal with new state `S ∪ {""}`.  State
equality is equality of the lexicographically sorted item sequences,
which coincides with set equality. -/
theorem c3_model_step_matches_spec (S T : Finset String)
    (k v outv m : String) (e : CliErr) :
    ((stepModel S ⟨opGet, k, v⟩ ⟨outv, none⟩).1 = true ↔ outv ∈ S)
    ∧ (stepModel S ⟨opGet, k, v⟩ ⟨outv, none⟩).2 = S
    ∧ ((stepModel S ⟨opGet, k, v⟩ ⟨outv, some .notFound⟩).1 = true ↔
        ("" ∈ S ∨ S = ∅))
    ∧ (stepModel S ⟨opGet, k, v⟩ ⟨outv, some .notFound⟩).2 = S
    ∧ stepModel S ⟨opGet, k, v⟩ ⟨outv, some (.connUnusable m)⟩ = (true, S)
    ∧ stepModel S ⟨opGet, k, v⟩ ⟨outv, some (.errMsg m)⟩ = (true, S)
    ∧ stepModel S ⟨opSet, k, v⟩ ⟨outv, none⟩ = (true, {v})
    ∧ stepModel S ⟨opSet, k, v⟩ ⟨outv, some e⟩ = (true, insert v S)
    ∧ stepModel S ⟨opDel, k, v⟩ ⟨outv, none⟩ = (true, ∅)
    ∧ stepModel S ⟨opDel, k, v⟩ ⟨outv, some e⟩ = (true, insert "" S)
    ∧ (modelEqual S T = true ↔ sortedItems S = sortedItems T)
    ∧ (modelEqual S T = true ↔ S = T) := by
  refine ⟨?_, ?_, ?_, ?_, ?_, ?_, ?_, ?_, ?_, ?_, ?_, ?_⟩
  · simp [stepModel, opGet]
  · simp [stepModel, opGet]
  · simp [stepModel, opGet, Finset.card_eq_zero]
  · simp [stepModel, opGet]
  · simp [stepModel, opGet]
  · simp [stepModel, opGet]
  · simp [stepModel, opSet, opGet]
  · simp [stepModel, opSet, opGet]
  · simp [stepModel, opDel, opSet, opGet]
  · simp [stepModel, opDel, opSet, opGet]
  · simp [modelEqual]
  · constructor
    · intro h
      exact sortedItems_inj S T (by simpa [modelEqual] using h)
    · intro h
      subst h
      simp [modelEqual]

/-- **C8.** Once a transport-level error has been latched, every client
call (`Get`, `Set`, `Del`, `Ping`, `FlushAll`, `Close`) returns the
`conn unusable: <cause>` error with the state unchanged, for every
possible connection behavior (so no network operation can influence the
result); and the latched state is never cleared: a call that ends
unlatched must have started unlatched. -/
theorem c8_client_latches_unusable (c : String) (st : CliState)
    (key value : String) (env : DoEnv) (cls : Option String) :
    clientPing (some c) env = (some (.connUnusable c), some c)
    ∧ clientGet (some c) key env = (.error (.connUnusable c), some c)
    ∧ clientSet (some c) key value env = (some (.connUnusable c), some c)
    ∧ clientDel (some c) key env = (some (.connUnusable c), some c)
    ∧ clientFlushAll (some c) env = (some (.connUnusable c), some c)
    ∧ clientClose (some c) cls = (some (.connUnusable c), some c)
    ∧ renderCliErr (.connUnusable c) = "conn unusable: " ++ c
    ∧ ((clientPing st env).2 = none → st = none)
    ∧ ((clientGet st key env).2 = none → st = none)
    ∧ ((clientSet st key value env).2 = none → st = none)
    ∧ ((clientDel st key env).2 = none → st = none)
    ∧ ((clientFlushAll st env).2 = none → st = none)
    ∧ ((clientClose st cls).2 = none → st = none) := by
  refine ⟨rfl, rfl, rfl, rfl, rfl, rfl, rfl, ?_, ?_, ?_, ?_, ?_, ?_⟩
  all_goals
    cases st with
    | none => intro _; rfl
    | some c' => intro h; simp [clientPing, clientGet, clientSet,
        clientDel, clientFlushAll, clientClose] at h

/-- **C8 witness.** A client latched with cause `t` refuses a `PING`
with the sticky error, and an unlatched successful `PING` stays
unlatched. -/
theorem c8_witness :
    clientPing (some "t") ⟨none, .simple "PONG", none⟩ =
      (some (.connUnusable "t"), some "t")
    ∧ (none : CliState) = none := by
  refine ⟨(c8_client_latches_unusable "t" none "k" "v"
    ⟨none, .simple "PONG", none⟩ none).1, ?_⟩
  exact (c8_client_latches_unusable "t" none "k" "v"
    ⟨none, .simple "PONG", none⟩ none).2.2.2.2.2.2.2.1 rfl

/-- **C9 counterexample.** The claim fails on `ping`: a `ping` request
carrying one argument is answered `+PONG`, not the arity error. -/
theorem c9_counterexample :
    serverPing ["extra"] = .simple "PONG" ∧
    serverPing ["extra"] ≠ arityError opPing := by
  constructor
  · rfl
  · decide

/-- **C9 (amended).** `flushall` takes 0 arguments and any request for it
with arguments replies the arity error instead of executing; `ping`
ignores its argument count entirely and always replies `+PONG`. -/
theorem c9_flushall_arity_ping_ignores_args (args : List String)
    (envs : List IterEnv) :
    (args ≠ [] → serverFlushAll args envs = some (arityError opFlushAll))
    ∧ serverPing args = .simple "PONG" := by
  constructor
  · intro h
    have hl : args.length > 0 := List.length_pos.mpr h
    simp [serverFlushAll, hl]
  · rfl

/-- **C9 witness.** `flushall` with one argument draws the arity error;
`ping` with the same argument still replies `+PONG`. -/
theorem c9_witness :
    serverFlushAll ["x"] [] = some (arityError opFlushAll) ∧
    serverPing ["x"] = .simple "PONG" :=
  ⟨(c9_flushall_arity_ping_ignores_args ["x"] []).1 (by decide),
    (c9_flushall_arity_ping_ignores_args ["x"] []).2⟩
